import Mathlib

/-!
Verification of the `gloo` file crate: a shallow embedding in Lean 4 of
`src/crates/file/src/lib.rs` (and the duplicated `file_list.rs`).

Host objects (`web_sys::File`, `web_sys::Blob`, `web_sys::FileList`,
`web_sys::FileReader`) are modelled as Lean structures carrying exactly the
observations the wrapped code reads: a file list is its ordered list of host
files; a blob/file reports a byte size and a MIME-type string; a reader's
result slot is a `Result<JsValue, JsValue>` whose payload may or may not be a
JS string.  Rust `usize` is embedded as `Nat`; the cast `index as u32` in
`FileList::get` becomes an explicit `% 2^32`.  Panics (`assert!`, `unwrap`)
are embedded as explicit outcome constructors, and the `futures` oneshot
channel used by `FileReader::read_as_string` is embedded as a producer-side
state machine whose receiver observation follows the oneshot contract
(value sent, sender dropped without sending, or still pending).  The
lifecycle of the callback closure — allocated during setup, dropped when
`read_as_string` returns since it is never forgotten or stored, consumed if
it ever runs — is embedded as an explicit bridge state machine, with the
event-loop guarantee that the `load` event fires only after the synchronous
call has returned.
-/

namespace Gloo

/-- A JavaScript value as observed through `wasm_bindgen::JsValue::as_string`:
either a JS string or something else. -/
inductive JsValue where
  | str : String → JsValue
  | other : JsValue
deriving DecidableEq

/-- Embeds `JsValue::as_string` — `Some` exactly when the value is a JS string. -/
def JsValue.as_string : JsValue → Option String
  | .str s => some s
  | .other => none

/-- Host `web_sys::File`: the observations the wrapper reads
(`size()` and `type_()`). -/
structure WebSysFile where
  size : Nat
  type_ : String
deriving DecidableEq

/-- Host `web_sys::Blob`: the observations the wrapper reads
(`size()` and `type_()`). -/
structure WebSysBlob where
  size : Nat
  type_ : String
deriving DecidableEq

/-- Host `web_sys::FileList`: an ordered collection of host files. -/
structure WebSysFileList where
  files : List WebSysFile
deriving DecidableEq

/-- Host `FileList::length` (a `u32` in `web_sys`): the number of files. -/
def WebSysFileList.length (l : WebSysFileList) : Nat :=
  l.files.length

/-- Host `FileList::get(j)`: the file at index `j`, or `None` past the end. -/
def WebSysFileList.get (l : WebSysFileList) (j : Nat) : Option WebSysFile :=
  l.files.get? j

/-- The value of `index as u32` for a Rust `usize` index embedded as `Nat`. -/
def usizeAsU32 (n : Nat) : Nat :=
  n % 4294967296

/-- Embeds `gloo::file::File`: wraps one host file object. -/
structure File where
  inner : WebSysFile
deriving DecidableEq

/-- Embeds `File::from_raw`. -/
def File.from_raw (inner : WebSysFile) : File :=
  ⟨inner⟩

/-- Embeds `gloo::file::FileList`: the host collection plus the length captured at
construction (`from_raw`). -/
structure FileList where
  inner : WebSysFileList
  length : Nat
deriving DecidableEq

/-- Embeds `FileList::from_raw`: wraps a host collection and snapshots
`inner.length() as usize`. -/
def FileList.from_raw (inner : WebSysFileList) : FileList :=
  ⟨inner, inner.length⟩

/-- Embeds `FileList::get`: `self.inner.get(index as u32).map(File::from_raw)`. -/
def FileList.get (fl : FileList) (index : Nat) : Option File :=
  (fl.inner.get (usizeAsU32 index)).map File.from_raw

/-- Embeds `FileList::len`: returns the stored snapshot length. -/
def FileList.len (fl : FileList) : Nat :=
  fl.length

/-- Embeds `gloo::file::FileListIter`: a borrowed list plus the current index. -/
structure FileListIter where
  file_list : FileList
  current : Nat
deriving DecidableEq

/-- Outcome of one `FileListIter::next` call: `done` is `None`, `yield` is
`Some(file)` together with the advanced iterator, `aborted` is the
`assert!(file.is_some())` panic. -/
inductive IterStep where
  | done : IterStep
  | yield : File → FileListIter → IterStep
  | aborted : IterStep
deriving DecidableEq

/-- Embeds `FileListIter::next`: return `None` once `current >= len()`; otherwise
look the current index up, advance, and panic if the lookup failed. -/
def FileListIter.next (it : FileListIter) : IterStep :=
  if it.file_list.len ≤ it.current then .done
  else
    match it.file_list.get it.current with
    | some file => .yield file ⟨it.file_list, it.current + 1⟩
    | none => .aborted

/-- The collection loop underlying `FileList::into_vec` (`self.iter().collect()`),
started at index `current`; `none` models the iterator panicking mid-collect. -/
def collectFrom (fl : FileList) (current : Nat) : Option (List File) :=
  if h : fl.len ≤ current then some []
  else
    match fl.get current with
    | some file => (collectFrom fl (current + 1)).map (file :: ·)
    | none => none
termination_by fl.len - current
decreasing_by simp_wf; omega

/-- Embeds `FileList::into_vec`: materialise `iter()` from index 0. -/
def FileList.into_vec (fl : FileList) : Option (List File) :=
  collectFrom fl 0

/-- Embeds `gloo::file::MimeType`. -/
inductive MimeType where
  | Unknown : MimeType
  | ApplicationJson : MimeType
deriving DecidableEq

/-- Embeds `gloo::file::DataBlob`: wraps one host blob object. -/
structure DataBlob where
  inner : WebSysBlob
deriving DecidableEq

/-- Embeds `<DataBlob as Blob>::size`: forwards the host blob's size. -/
def DataBlob.size (b : DataBlob) : Nat :=
  b.inner.size

/-- Embeds `<DataBlob as Blob>::mime_type`: exact match of `type_()` against
`"application/json"`, everything else is `Unknown`. -/
def DataBlob.mime_type (b : DataBlob) : MimeType :=
  if b.inner.type_ = "application/json" then .ApplicationJson else .Unknown

/-- Embeds `<File as Blob>::size`: forwards the host file's size. -/
def File.size (f : File) : Nat :=
  f.inner.size

/-- Embeds `<File as Blob>::mime_type`: exact match of `type_()` against
`"application/json"`, everything else is `Unknown`. -/
def File.mime_type (f : File) : MimeType :=
  if f.inner.type_ = "application/json" then .ApplicationJson else .Unknown

/-- Producer side of the `futures::sync::oneshot` channel created by
`read_as_string`: the sender is still alive and unused, has sent a value,
or was dropped without sending. -/
inductive TxState where
  | alive : TxState
  | sent : String → TxState
  | dropped : TxState
deriving DecidableEq

/-- Embeds `tx.send(s)`: delivers the value when the sender is alive and unused;
a sender already consumed (`sent`) or dropped can never deliver again. -/
def TxState.send (st : TxState) (s : String) : TxState :=
  match st with
  | .alive => .sent s
  | st => st

/-- Dropping the sender without sending (the closure being freed, fired or
not): an alive sender becomes `dropped`; a consumed sender is unaffected. -/
def TxState.dropSender (st : TxState) : TxState :=
  match st with
  | .alive => .dropped
  | st => st

/-- What the consumer's future (`rx.map_err(|_| ())`) observes of the channel:
`none` while the sender is alive (still pending); `Ok s` once `s` was sent;
`Err ()` (the `Canceled` error mapped to `()`) once the sender was dropped
without sending. -/
def rxObserve : TxState → Option (Except Unit String)
  | .alive => none
  | .sent s => some (.ok s)
  | .dropped => some (.error ())

/-- Outcome of running the `onload` closure once: it finished normally
leaving the channel in the given state, or it panicked. -/
inductive HandlerRun where
  | normal : TxState → HandlerRun
  | panicked : HandlerRun
deriving DecidableEq

/-- The `onload` closure installed by `read_as_string`, run against the
reader's result slot `result` with the channel producer in state `st`:
`let _ = cloned_reader.result().map(|r| { let _ = tx.send(r.as_string().unwrap()); });`
— on `Err` nothing runs and the sender is dropped when the once-closure's
captures are freed; on `Ok r` with `r` a string, the value is sent (and the
consumed sender is then freed); on `Ok r` with `r` not a string,
`as_string().unwrap()` panics. -/
def onloadFire (result : Except JsValue JsValue) (st : TxState) : HandlerRun :=
  match result with
  | .error _ => .normal st.dropSender
  | .ok r =>
    match r.as_string with
    | some s => .normal ((st.send s).dropSender)
    | none => .panicked

/-- Lifecycle state of the `read_as_string` bridge: the channel producer's
state, and whether the `wasm_bindgen::closure::Closure` value `cb` — which
owns that producer among its captures — is still allocated. -/
structure BridgeState where
  tx : TxState
  cbAlive : Bool
deriving DecidableEq

/-- State right after the synchronous setup inside `read_as_string`: the
oneshot channel was created (sender alive, captured by the closure), `cb`
was allocated, `onload` was registered and `read_as_text` issued. -/
def bridgeSetup : BridgeState :=
  ⟨TxState.alive, true⟩

/-- Embeds the return from `read_as_string`: `cb` is a local `Closure` that
the function neither forgets (`Closure::forget`) nor stores nor returns, so
it is dropped when the call returns, deallocating the Rust closure together
with its captures — the oneshot sender included — and invalidating its JS
shim. -/
def bridgeReturn (st : BridgeState) : BridgeState :=
  if st.cbAlive then ⟨st.tx.dropSender, false⟩ else st

/-- Outcome of the host firing the `load` event against the bridge: the
closure body ran normally leaving a new state, the body panicked, or the
closure had already been dropped so its invalidated JS shim raises without
ever running the Rust body (nothing is sent). -/
inductive LoadOutcome where
  | ran : BridgeState → LoadOutcome
  | panicked : LoadOutcome
  | shimRaised : BridgeState → LoadOutcome
deriving DecidableEq

/-- Embeds the host firing the `load` event: a live closure runs the `onload`
body against the reader's result slot (and, being a once-closure, is
deallocated after running); a dropped closure's shim raises, the body never
runs, and the channel is untouched.  On the single-threaded event loop the
`load` event can only fire on a later turn than the synchronous
`read_as_string` body, i.e. only against `bridgeReturn bridgeSetup` or
later states. -/
def bridgeLoad (result : Except JsValue JsValue) (st : BridgeState) :
    LoadOutcome :=
  if st.cbAlive then
    match onloadFire result st.tx with
    | .normal tx2 => .ran ⟨tx2, false⟩
    | .panicked => .panicked
  else .shimRaised st

/-! Helper lemmas about `List.get?` and `List.drop`. -/

theorem optionIsSomeMap {α β : Type} (f : α → β) (o : Option α) :
    (o.map f).isSome = o.isSome := by
  cases o <;> rfl

theorem listGetSomeIffLt {α : Type} (xs : List α) (j : Nat) :
    (xs.get? j).isSome = true ↔ j < xs.length := by
  induction xs generalizing j with
  | nil => simp [List.get?]
  | cons x xs ih =>
    cases j with
    | zero => simp [List.get?]
    | succ j => simpa [List.get?] using ih j

theorem listGetConsDrop {α : Type} (xs : List α) (k : Nat) (hk : k < xs.length) :
    ∃ x, xs.get? k = some x ∧ xs.drop k = x :: xs.drop (k + 1) := by
  induction xs generalizing k with
  | nil => simp at hk
  | cons y ys ih =>
    cases k with
    | zero => exact ⟨y, rfl, rfl⟩
    | succ k =>
      obtain ⟨x, h1, h2⟩ := ih k (by simpa using hk)
      exact ⟨x, h1, by simpa [List.drop] using h2⟩

/-! Theorems settling the claims. -/

/-- C1: the code contradicts the spec's intended contract.  `cb` is a local
`Closure` that `read_as_string` neither forgets nor stores (only the reader
is kept alive via `Rc`, not the closure), so `cb` — and the oneshot sender it
owns — is dropped when the call returns, necessarily before the asynchronous
`load` event can fire on the single-threaded event loop.  At the claimed
input (a host read completing with the string "hello"), by the time the
event fires the future has already failed with `Err ()` and the event hits
the deallocated closure's shim: the handler body never runs, nothing is ever
sent, and the future can never resolve with "hello". -/
theorem read_as_string_hello_never_resolves :
    bridgeReturn bridgeSetup = ⟨TxState.dropped, false⟩ ∧
    rxObserve (bridgeReturn bridgeSetup).tx = some (Except.error ()) ∧
    bridgeLoad (Except.ok (JsValue.str "hello")) (bridgeReturn bridgeSetup) =
      LoadOutcome.shimRaised ⟨TxState.dropped, false⟩ :=
  ⟨rfl, rfl, rfl⟩

/-- C2 counterexample: the claim says the handler "does not panic or abort"
whenever the reader's result cannot be interpreted as a string; but when
`result()` returns `Ok` of a non-string value, `r.as_string().unwrap()`
panics. -/
theorem onload_nonstring_panics :
    onloadFire (Except.ok JsValue.other) TxState.alive = HandlerRun.panicked :=
  rfl

/-- C2 (amended): when `result()` itself returns an error the handler sends
nothing (so once the sender is freed the future fails with `()`, not a
string); when `result()` succeeds but the value is not interpretable as a
string, the handler panics on the `unwrap`. -/
theorem onload_failure_behavior (e : JsValue) :
    (onloadFire (Except.error e) TxState.alive =
        HandlerRun.normal TxState.dropped ∧
      rxObserve TxState.dropped = some (Except.error ())) ∧
    (∀ v : JsValue, v.as_string = none →
      onloadFire (Except.ok v) TxState.alive = HandlerRun.panicked) := by
  refine ⟨⟨rfl, rfl⟩, fun v hv => ?_⟩
  simp [onloadFire, hv]

/-- C2 witness: the amended behavior at the concrete non-string value. -/
theorem onload_failure_behavior_witness :
    JsValue.as_string JsValue.other = none ∧
    onloadFire (Except.ok JsValue.other) TxState.alive = HandlerRun.panicked :=
  ⟨rfl, (onload_failure_behavior JsValue.other).2 JsValue.other rfl⟩

/-- C3: if the producer side of the oneshot channel is dropped before
delivering (the callback closure freed without firing), the consumer's future
observes exactly `Err ()` — not pending, not a string. -/
theorem dropped_sender_fails_future :
    TxState.dropSender TxState.alive = TxState.dropped ∧
    rxObserve TxState.dropped = some (Except.error ()) :=
  ⟨rfl, rfl⟩

/-- C4 counterexample: on a host collection of length 1, the claim demands
`get i = None` for every `i ≥ 1`, but `index as u32` truncates, so
`get (2^32)` queries host index 0 and returns `Some`. -/
theorem get_large_index_wraps :
    (FileList.from_raw ⟨[⟨0, ""⟩]⟩).len = 1 ∧
    (FileList.from_raw ⟨[⟨0, ""⟩]⟩).get 4294967296 =
      some (File.from_raw ⟨0, ""⟩) := by
  exact ⟨rfl, rfl⟩

/-- C4 (amended): for a host collection of length N, `get i` returns `Some`
exactly when `i % 2^32 < N`; in particular the original claim holds for every
index below `2^32` (every index representable on the 32-bit wasm target), but
an index `≥ 2^32` congruent to a valid index modulo `2^32` also succeeds. -/
theorem get_some_iff_mod_lt (l : WebSysFileList) (i : Nat) :
    (((FileList.from_raw l).get i).isSome = true ↔
      i % 4294967296 < (FileList.from_raw l).len) ∧
    (∀ j : Nat, j < 4294967296 →
      (((FileList.from_raw l).get j).isSome = true ↔
        j < (FileList.from_raw l).len)) := by
  have key : ∀ k : Nat, ((FileList.from_raw l).get k).isSome = true ↔
      k % 4294967296 < (FileList.from_raw l).len := by
    intro k
    simp only [FileList.get, FileList.from_raw, FileList.len,
      WebSysFileList.get, WebSysFileList.length, usizeAsU32,
      optionIsSomeMap]
    exact listGetSomeIffLt l.files (k % 4294967296)
  refine ⟨key i, fun j hj => ?_⟩
  simpa [Nat.mod_eq_of_lt hj] using key j

/-- C4 amended witness: at a concrete length-1 host list, `get 0` succeeds,
`get 1` fails, and `get (2^32)` succeeds since `2^32 % 2^32 = 0 < 1`. -/
theorem get_some_iff_mod_lt_witness :
    (((FileList.from_raw ⟨[⟨0, ""⟩]⟩).get 1).isSome = true ↔
      1 < (FileList.from_raw ⟨[⟨0, ""⟩]⟩).len) :=
  (get_some_iff_mod_lt ⟨[⟨0, ""⟩]⟩ 0).2 1 (by decide)

/-- C5: `len()` always returns the length snapshot taken at `from_raw`:
it equals the host length at construction time, it is unchanged if the host
collection later reports anything else (modelled by swapping the `inner`
component while the stored snapshot stays), and the only state-changing
wrapper operation, the iterator's `next`, carries the wrapper (hence the
stored length) along unchanged in every outcome. -/
theorem len_is_construction_snapshot (l other2 : WebSysFileList) :
    (FileList.from_raw l).len = l.length ∧
    (FileList.mk other2 (FileList.from_raw l).length).len = l.length ∧
    (∀ (fl : FileList) (cur : Nat),
        FileListIter.next ⟨fl, cur⟩ = IterStep.done ∨
        (∃ f : File,
          FileListIter.next ⟨fl, cur⟩ = IterStep.yield f ⟨fl, cur + 1⟩) ∨
        FileListIter.next ⟨fl, cur⟩ = IterStep.aborted) := by
  refine ⟨rfl, rfl, fun fl cur => ?_⟩
  unfold FileListIter.next
  split
  · exact Or.inl rfl
  · cases hget : fl.get cur with
    | none => exact Or.inr (Or.inr (by simp [hget]))
    | some f => exact Or.inr (Or.inl ⟨f, by simp [hget]⟩)

/-- The collect loop on a freshly wrapped, in-bounds host list gathers the
remaining suffix of host files, in order. -/
theorem collectFrom_from_raw (l : WebSysFileList)
    (h : l.files.length < 4294967296) :
    ∀ k, k ≤ l.files.length →
      collectFrom (FileList.from_raw l) k =
        some ((l.files.drop k).map File.from_raw) := by
  have main : ∀ d k, l.files.length - k = d → k ≤ l.files.length →
      collectFrom (FileList.from_raw l) k =
        some ((l.files.drop k).map File.from_raw) := by
    intro d
    induction d with
    | zero =>
      intro k hd hk
      have hk' : k = l.files.length := by omega
      rw [collectFrom]
      have hstop : (FileList.from_raw l).len ≤ k := by
        simp [FileList.from_raw, FileList.len, WebSysFileList.length, hk']
      rw [dif_pos hstop]
      subst hk'
      simp
    | succ d ih =>
      intro k hd hk
      have hlt : k < l.files.length := by omega
      obtain ⟨x, hx1, hx2⟩ := listGetConsDrop l.files k hlt
      rw [collectFrom]
      have hgo : ¬ (FileList.from_raw l).len ≤ k := by
        simp only [FileList.from_raw, FileList.len, WebSysFileList.length]
        omega
      rw [dif_neg hgo]
      have hget : (FileList.from_raw l).get k = some (File.from_raw x) := by
        simp only [FileList.get, FileList.from_raw, WebSysFileList.get,
          usizeAsU32, Nat.mod_eq_of_lt (lt_trans hlt h)]
        rw [hx1]
        rfl
      rw [hget]
      rw [ih (k + 1) (by omega) (by omega)]
      simp [hx2]
  intro k hk
  exact main (l.files.length - k) k rfl hk

/-- C6: on a wrapper freshly built over a host list of length N (each index
below N yielding a handle), `into_vec` returns exactly the N host files in
host order, the iterator at each position `k < N` yields the host's file `k`
and advances, and at position N it returns `None`. -/
theorem into_vec_iter_complete (l : WebSysFileList)
    (h : l.files.length < 4294967296) :
    (FileList.from_raw l).into_vec = some (l.files.map File.from_raw) ∧
    (∀ k, k < l.files.length →
        ∃ f : WebSysFile, l.files.get? k = some f ∧
          FileListIter.next ⟨FileList.from_raw l, k⟩ =
            IterStep.yield (File.from_raw f) ⟨FileList.from_raw l, k + 1⟩) ∧
    FileListIter.next ⟨FileList.from_raw l, l.files.length⟩ = IterStep.done := by
  refine ⟨?_, fun k hk => ?_, ?_⟩
  · have := collectFrom_from_raw l h 0 (Nat.zero_le _)
    simpa [FileList.into_vec] using this
  · obtain ⟨x, hx1, _⟩ := listGetConsDrop l.files k hk
    refine ⟨x, hx1, ?_⟩
    have hget : (FileList.from_raw l).get k = some (File.from_raw x) := by
      simp only [FileList.get, FileList.from_raw, WebSysFileList.get,
        usizeAsU32, Nat.mod_eq_of_lt (lt_trans hk h)]
      rw [hx1]
      rfl
    unfold FileListIter.next
    dsimp only
    have hgo : ¬ (FileList.from_raw l).len ≤ k := by
      simp only [FileList.from_raw, FileList.len, WebSysFileList.length]
      omega
    simp [hgo, hget]
  · unfold FileListIter.next
    have hstop : (FileList.from_raw l).len ≤ l.files.length := by
      simp [FileList.from_raw, FileList.len, WebSysFileList.length]
    simp [hstop]

/-- C6 witness: a concrete two-file host list materialises to its two files
in order, and the empty host list materialises to nothing. -/
theorem into_vec_iter_complete_witness :
    (FileList.from_raw ⟨[⟨3, "a"⟩, ⟨4, "b"⟩]⟩).into_vec =
      some [File.from_raw ⟨3, "a"⟩, File.from_raw ⟨4, "b"⟩] ∧
    (FileList.from_raw ⟨[]⟩).into_vec = some [] :=
  ⟨(into_vec_iter_complete ⟨[⟨3, "a"⟩, ⟨4, "b"⟩]⟩ (by decide)).1,
   (into_vec_iter_complete ⟨[]⟩ (by decide)).1⟩

/-- C7: if the host collection answers `Some` at every index below the
captured length, the `assert!` in `FileListIter::next` can never fire (no
`next` call aborts); if instead the host answers `None` at some index below
the captured length, `next` at that index aborts rather than returning
`None`. -/
theorem iter_abort_iff_host_gap (fl : FileList) :
    ((∀ j, j < fl.len → (fl.get j).isSome = true) →
      ∀ cur : Nat, FileListIter.next ⟨fl, cur⟩ ≠ IterStep.aborted) ∧
    (∀ j, j < fl.len → fl.get j = none →
      FileListIter.next ⟨fl, j⟩ = IterStep.aborted) := by
  constructor
  · intro hall cur
    unfold FileListIter.next
    dsimp only
    split
    · simp
    · cases hget : fl.get cur with
      | none =>
        have : (fl.get cur).isSome = true := hall cur (by omega)
        rw [hget] at this
        simp at this
      | some f => simp [hget]
  · intro j hj hnone
    unfold FileListIter.next
    dsimp only
    rw [if_neg (by omega), hnone]

/-- C7 witness: on an intact length-1 wrapper no step aborts; on a wrapper
whose stored length is 1 but whose host collection is empty (host mutated
after the snapshot), the first step aborts. -/
theorem iter_abort_iff_host_gap_witness :
    FileListIter.next ⟨FileList.from_raw ⟨[⟨1, "a"⟩]⟩, 0⟩ ≠ IterStep.aborted ∧
    FileListIter.next ⟨FileList.mk ⟨[]⟩ 1, 0⟩ = IterStep.aborted :=
  ⟨(iter_abort_iff_host_gap (FileList.from_raw ⟨[⟨1, "a"⟩]⟩)).1 (by decide) 0,
   (iter_abort_iff_host_gap (FileList.mk ⟨[]⟩ 1)).2 0 (by decide) (by decide)⟩

/-- C8: for both implementers, `mime_type()` is `ApplicationJson` exactly
when the host-reported type string is `"application/json"`, and the only
other possible classification is `Unknown` (so every other string, the empty
string included, yields `Unknown`). -/
theorem mime_type_classification (b : WebSysBlob) (f : WebSysFile) :
    ((DataBlob.mk b).mime_type = MimeType.ApplicationJson ↔
      b.type_ = "application/json") ∧
    ((File.mk f).mime_type = MimeType.ApplicationJson ↔
      f.type_ = "application/json") ∧
    ((DataBlob.mk b).mime_type = MimeType.ApplicationJson ∨
      (DataBlob.mk b).mime_type = MimeType.Unknown) ∧
    ((File.mk f).mime_type = MimeType.ApplicationJson ∨
      (File.mk f).mime_type = MimeType.Unknown) := by
  refine ⟨?_, ?_, ?_, ?_⟩ <;>
    simp only [DataBlob.mime_type, File.mime_type] <;>
    split <;> simp_all

/-- C9: the two `Blob` implementers are behaviourally identical: whenever the
two host objects report the same byte size and the same MIME-type string,
`DataBlob` and `File` agree on `size()` and on `mime_type()`. -/
theorem blob_impls_agree (b : WebSysBlob) (f : WebSysFile)
    (hsize : b.size = f.size) (htype : b.type_ = f.type_) :
    (DataBlob.mk b).size = (File.mk f).size ∧
    (DataBlob.mk b).mime_type = (File.mk f).mime_type := by
  constructor
  · simpa [DataBlob.size, File.size] using hsize
  · simp [DataBlob.mime_type, File.mime_type, htype]

/-- C9 witness: concrete host objects agreeing on size and type. -/
theorem blob_impls_agree_witness :
    (DataBlob.mk ⟨5, "application/json"⟩).size =
      (File.mk ⟨5, "application/json"⟩).size ∧
    (DataBlob.mk ⟨5, "application/json"⟩).mime_type =
      (File.mk ⟨5, "application/json"⟩).mime_type :=
  blob_impls_agree ⟨5, "application/json"⟩ ⟨5, "application/json"⟩ rfl rfl

/-- C10: `FileList::get` truncates its index to 32 bits before querying the
host (`index as u32`), so `get i` queries the host collection at position
`i % 2^32`, and any two indices congruent modulo `2^32` are observationally
identical to `get`. -/
theorem get_truncates_index_mod_u32 (fl : FileList) (i : Nat) :
    fl.get i = (fl.inner.get (i % 4294967296)).map File.from_raw ∧
    (∀ j : Nat, i % 4294967296 = j % 4294967296 → fl.get i = fl.get j) := by
  refine ⟨rfl, fun j hij => ?_⟩
  simp [FileList.get, usizeAsU32, hij]

/-- C10 witness: on a concrete length-1 host list, the congruent indices 0 and
`2^32` give the same answer. -/
theorem get_truncates_index_mod_u32_witness :
    (FileList.from_raw ⟨[⟨0, ""⟩]⟩).get 0 =
      (FileList.from_raw ⟨[⟨0, ""⟩]⟩).get 4294967296 :=
  (get_truncates_index_mod_u32 (FileList.from_raw ⟨[⟨0, ""⟩]⟩) 0).2
    4294967296 (by decide)

end Gloo
